import Mathlib

/-!
Verification of the SpeakFlow client's session-completion poller and
recording-phase state machine.

The embedding mirrors three source functions:

* `pollSessionStatus` (apps/web `lib/api.ts` and the duplicate in
  `apps/mobile/app/(app)/daily.tsx`): a while-loop that queries the status
  endpoint once per attempt, notifies `onProgress` with the observed status
  string, returns the report fetched from the session endpoint on
  `completed`, throws `ApiError(error_message || 'Processing failed', 500)`
  on `failed`, and throws `ApiError('Processing timed out', 408)` once
  `maxAttempts` attempts are exhausted.
* `waitForCompletion` (mobile `services/api.ts`): the same loop, except the
  progress callback receives the whole status response object, the timeout
  error message is `'Timeout waiting for processing to complete'`, and the
  default parameters differ.
* `handleStartRecording` / `handleStopRecording` (mobile
  `screens/RecordScreen.tsx`) together with `startRecording` /
  `stopRecording` of `hooks/useAudioRecorder.ts`.

The network is modelled as an oracle `getStatus : Nat → SessionStatusResponse`
giving the response to the i-th status poll, plus the value `getReport` that
the report endpoint would return.  The poller is then a pure function whose
result is a `PollTrace`: how many status calls and report fetches were made,
the list of arguments passed to the progress callback (in call order), and
the outcome (resolved report or thrown error).  The session id and the sleep
interval do not influence this observable trace, so they are recorded only
as the default-value constants taken from the source signatures.
-/

/-- Status payload returned by the status endpoint (`SessionStatusResponse`
in `contracts.ts`): a status plus an optional `error_message`.  The status is
carried as a raw string because the pollers compare it by string equality
against the literals used in the source, and the runtime value is whatever
JSON the server sent. -/
structure SessionStatusResponse where
  status : String
  error_message : Option String
  deriving DecidableEq

/-- Error thrown by the client API layer (`ApiError` in the source): a
message and an HTTP-like numeric status code. -/
structure ApiError where
  message : String
  status : Int
  deriving DecidableEq

/-- Terminal result of one poller run: the fetched report, or the thrown
`ApiError`. -/
inductive PollOutcome (ρ : Type) where
  | ok (report : ρ)
  | err (e : ApiError)
  deriving DecidableEq

/-- Observable trace of one poller run.  `progressEvents` lists the
arguments of the `onProgress` invocations in chronological order; the
outcome is the last event of the run, nothing follows it. -/
structure PollTrace (ε ρ : Type) where
  statusCalls : Nat
  reportFetches : Nat
  progressEvents : List ε
  outcome : PollOutcome ρ
  deriving DecidableEq

/-- JavaScript `a || b` on `string | undefined`: an absent or empty string
falls back to the default (the empty string is falsy in JS). -/
def jsOrString : Option String → String → String
  | some s, d => if s = "" then d else s
  | none, d => d

/-- Shared loop of `pollSessionStatus` and `waitForCompletion`.  `attempt`
is the index of the next status poll; `fuel` is the number of loop
iterations still allowed (`maxAttempts - attempt`).  Each iteration:
query status, notify progress with `ev` of the response, return the fetched
report on `"completed"`, throw `ApiError(error_message || 'Processing
failed', 500)` on `"failed"`, otherwise sleep and continue.  When the
budget is exhausted the timeout error is thrown. -/
def pollLoop (getStatus : Nat → SessionStatusResponse) (ev : SessionStatusResponse → ε)
    (timeoutError : ApiError) (getReport : ρ) : Nat → Nat → PollTrace ε ρ
  | _, 0 => ⟨0, 0, [], PollOutcome.err timeoutError⟩
  | attempt, fuel + 1 =>
    let st := getStatus attempt
    if st.status = "completed" then
      ⟨1, 1, [ev st], PollOutcome.ok getReport⟩
    else if st.status = "failed" then
      ⟨1, 0, [ev st],
        PollOutcome.err ⟨jsOrString st.error_message ("Processing failed"), 500⟩⟩
    else
      let rest := pollLoop getStatus ev timeoutError getReport (attempt + 1) fuel
      ⟨rest.statusCalls + 1, rest.reportFetches, ev st :: rest.progressEvents, rest.outcome⟩

/-- Timeout error of `pollSessionStatus`: `ApiError('Processing timed out', 408)`. -/
def processingTimedOut : ApiError := ⟨"Processing timed out", 408⟩

/-- Timeout error of `waitForCompletion`:
`ApiError(408, 'Timeout waiting for processing to complete')`. -/
def waitTimeoutError : ApiError := ⟨"Timeout waiting for processing to complete", 408⟩

/-- Trace of `pollSessionStatus(sessionId, onProgress?, interval, maxAttempts)`
run against the status oracle `getStatus` and report value `getReport`.
The progress callback receives the status string (`onProgress?.(status.status)`).
`maxAttempts` is a JS number: the `while (attempts < maxAttempts)` loop with
`attempts` counting up from 0 executes `max(maxAttempts, 0)` iterations
absent an early return, which is `Int.toNat maxAttempts`. -/
def pollSessionStatus (getStatus : Nat → SessionStatusResponse) (getReport : ρ)
    (maxAttempts : Int) : PollTrace String ρ :=
  pollLoop getStatus (fun st => st.status) processingTimedOut getReport 0 maxAttempts.toNat

/-- Trace of `waitForCompletion(sessionId, onProgress?, maxAttempts, intervalMs)`
run against the status oracle `getStatus` and report value `getReport`.
The progress callback receives the whole status response (`onProgress(status)`);
the `for (let i = 0; i < maxAttempts; i++)` loop likewise executes
`Int.toNat maxAttempts` iterations absent an early exit. -/
def waitForCompletion (getStatus : Nat → SessionStatusResponse) (getReport : ρ)
    (maxAttempts : Int) : PollTrace SessionStatusResponse ρ :=
  pollLoop getStatus (fun st => st) waitTimeoutError getReport 0 maxAttempts.toNat

/-- Default `interval` of `pollSessionStatus` (source: `interval: number = 1000`). -/
def pollSessionStatusDefaultInterval : Int := 1000

/-- Default `maxAttempts` of `pollSessionStatus` (source: `maxAttempts: number = 120`). -/
def pollSessionStatusDefaultMaxAttempts : Int := 120

/-- Default `maxAttempts` of `waitForCompletion` (source: `maxAttempts: number = 60`). -/
def waitForCompletionDefaultMaxAttempts : Int := 60

/-- Default `intervalMs` of `waitForCompletion` (source: `intervalMs: number = 2000`). -/
def waitForCompletionDefaultIntervalMs : Int := 2000

/-- Status oracle answering `pending` to every poll. -/
def allPendingStream : Nat → SessionStatusResponse := fun _ => ⟨"pending", none⟩

/-- Status oracle answering the unexpected status `queued` to every poll. -/
def queuedStream : Nat → SessionStatusResponse := fun _ => ⟨"queued", none⟩

/-- Auxiliary: a run whose first `fuel` observed statuses are all
non-terminal executes the whole budget, makes no report fetch, notifies
progress once per attempt and ends in the timeout error. -/
theorem pollLoop_timeout {ε ρ : Type} (f : Nat → SessionStatusResponse)
    (ev : SessionStatusResponse → ε) (te : ApiError) (r : ρ) :
    ∀ (fuel attempt : Nat),
      (∀ j, j < fuel → (f (attempt + j)).status ≠ "completed" ∧ (f (attempt + j)).status ≠ "failed") →
      pollLoop f ev te r attempt fuel =
        ⟨fuel, 0, (List.range fuel).map (fun j => ev (f (attempt + j))), PollOutcome.err te⟩ := by
  intro fuel
  induction fuel with
  | zero => intro attempt _; simp [pollLoop]
  | succ n ih =>
    intro attempt h
    have h0 := h 0 (Nat.succ_pos n)
    rw [Nat.add_zero] at h0
    have hrest := ih (attempt + 1) (fun j hj => by
      have := h (j + 1) (by omega)
      rwa [show attempt + (j + 1) = attempt + 1 + j by omega] at this)
    have hfun : (fun j => ev (f (attempt + 1 + j))) = (fun j => ev (f (attempt + (j + 1)))) := by
      funext j
      rw [show attempt + 1 + j = attempt + (j + 1) by omega]
    simp only [pollLoop, if_neg h0.1, if_neg h0.2, hrest]
    refine congrArg (PollTrace.mk (n + 1) 0 · (PollOutcome.err te)) ?_
    rw [hfun, List.range_succ_eq_map]
    simp [List.map_map, Function.comp]

/-- Auxiliary list fact: prepending `g 0` to the images of `1..n` is the
image of `0..n`. -/
theorem cons_map_range {α : Type} (n : Nat) (g : Nat → α) :
    g 0 :: (List.range n).map (fun j => g (j + 1)) = (List.range (n + 1)).map g := by
  rw [List.range_succ_eq_map, List.map_cons, List.map_map]
  rfl

/-- Auxiliary: a run whose first terminal observation is `completed` at
relative index `k` within budget stops there, having made `k + 1` status
calls, exactly one report fetch, one progress event per attempt, and
resolves with the fetched report. -/
theorem pollLoop_completed {ε ρ : Type} (f : Nat → SessionStatusResponse)
    (ev : SessionStatusResponse → ε) (te : ApiError) (r : ρ) :
    ∀ (k attempt fuel : Nat), k < fuel →
      (∀ j, j < k → (f (attempt + j)).status ≠ "completed" ∧ (f (attempt + j)).status ≠ "failed") →
      (f (attempt + k)).status = "completed" →
      pollLoop f ev te r attempt fuel =
        ⟨k + 1, 1, (List.range (k + 1)).map (fun j => ev (f (attempt + j))), PollOutcome.ok r⟩ := by
  intro k
  induction k with
  | zero =>
    intro attempt fuel hk _ hc
    rw [Nat.add_zero] at hc
    obtain ⟨m, rfl⟩ : ∃ m, fuel = m + 1 := ⟨fuel - 1, by omega⟩
    simp [pollLoop, hc]
    exact cons_map_range 0 (fun j => ev (f (attempt + j)))
  | succ k ih =>
    intro attempt fuel hk hpre hc
    obtain ⟨m, rfl⟩ : ∃ m, fuel = m + 1 := ⟨fuel - 1, by omega⟩
    have h0 := hpre 0 (Nat.succ_pos k)
    rw [Nat.add_zero] at h0
    have hrest := ih (attempt + 1) m (by omega)
      (fun j hj => by
        have := hpre (j + 1) (by omega)
        rwa [show attempt + (j + 1) = attempt + 1 + j by omega] at this)
      (by rwa [show attempt + 1 + k = attempt + (k + 1) by omega])
    have hfun : (fun j => ev (f (attempt + 1 + j))) = (fun j => ev (f (attempt + (j + 1)))) := by
      funext j
      rw [show attempt + 1 + j = attempt + (j + 1) by omega]
    simp only [pollLoop, if_neg h0.1, if_neg h0.2, hrest]
    refine congrArg (PollTrace.mk (k + 1 + 1) 1 · (PollOutcome.ok r)) ?_
    rw [hfun]
    exact cons_map_range (k + 1) (fun j => ev (f (attempt + j)))

/-- Auxiliary: a run whose first terminal observation is `failed` at
relative index `k` within budget stops there, having made `k + 1` status
calls, no report fetch, one progress event per attempt, and throws
`ApiError(error_message || 'Processing failed', 500)`. -/
theorem pollLoop_failed {ε ρ : Type} (f : Nat → SessionStatusResponse)
    (ev : SessionStatusResponse → ε) (te : ApiError) (r : ρ) :
    ∀ (k attempt fuel : Nat), k < fuel →
      (∀ j, j < k → (f (attempt + j)).status ≠ "completed" ∧ (f (attempt + j)).status ≠ "failed") →
      (f (attempt + k)).status = "failed" →
      pollLoop f ev te r attempt fuel =
        ⟨k + 1, 0, (List.range (k + 1)).map (fun j => ev (f (attempt + j))),
          PollOutcome.err ⟨jsOrString (f (attempt + k)).error_message ("Processing failed"), 500⟩⟩ := by
  intro k
  induction k with
  | zero =>
    intro attempt fuel hk _ hc
    rw [Nat.add_zero] at hc ⊢
    obtain ⟨m, rfl⟩ : ∃ m, fuel = m + 1 := ⟨fuel - 1, by omega⟩
    have hnc : (f attempt).status ≠ "completed" := by rw [hc]; decide
    simp [pollLoop, hc, hnc]
    exact cons_map_range 0 (fun j => ev (f (attempt + j)))
  | succ k ih =>
    intro attempt fuel hk hpre hc
    obtain ⟨m, rfl⟩ : ∃ m, fuel = m + 1 := ⟨fuel - 1, by omega⟩
    have h0 := hpre 0 (Nat.succ_pos k)
    rw [Nat.add_zero] at h0
    have hshift : attempt + 1 + k = attempt + (k + 1) := by omega
    have hrest := ih (attempt + 1) m (by omega)
      (fun j hj => by
        have := hpre (j + 1) (by omega)
        rwa [show attempt + (j + 1) = attempt + 1 + j by omega] at this)
      (by rwa [hshift])
    have hfun : (fun j => ev (f (attempt + 1 + j))) = (fun j => ev (f (attempt + (j + 1)))) := by
      funext j
      rw [show attempt + 1 + j = attempt + (j + 1) by omega]
    simp only [pollLoop, if_neg h0.1, if_neg h0.2, hrest, hshift]
    refine congrArg
      (PollTrace.mk (k + 1 + 1) 0 ·
        (PollOutcome.err ⟨jsOrString (f (attempt + (k + 1))).error_message ("Processing failed"), 500⟩)) ?_
    rw [hfun]
    exact cons_map_range (k + 1) (fun j => ev (f (attempt + j)))

/-- Auxiliary: in every run, the progress-event list is exactly one event
per status call, in attempt order, holding `ev` of the observed response. -/
theorem pollLoop_progressEvents {ε ρ : Type} (f : Nat → SessionStatusResponse)
    (ev : SessionStatusResponse → ε) (te : ApiError) (r : ρ) :
    ∀ (fuel attempt : Nat),
      (pollLoop f ev te r attempt fuel).progressEvents =
        (List.range (pollLoop f ev te r attempt fuel).statusCalls).map
          (fun j => ev (f (attempt + j))) := by
  intro fuel
  induction fuel with
  | zero => intro attempt; simp [pollLoop]
  | succ n ih =>
    intro attempt
    by_cases hc : (f attempt).status = "completed"
    · simp [pollLoop, hc]
      exact cons_map_range 0 (fun j => ev (f (attempt + j)))
    · by_cases hfl : (f attempt).status = "failed"
      · simp [pollLoop, hc, hfl]
        exact cons_map_range 0 (fun j => ev (f (attempt + j)))
      · have hrest := ih (attempt + 1)
        have hfun : (fun j => ev (f (attempt + 1 + j))) = (fun j => ev (f (attempt + (j + 1)))) := by
          funext j
          rw [show attempt + 1 + j = attempt + (j + 1) by omega]
        simp only [pollLoop, if_neg hc, if_neg hfl]
        rw [hrest, hfun]
        exact cons_map_range (pollLoop f ev te r (attempt + 1) n).statusCalls
          (fun j => ev (f (attempt + j)))

/-- Client-local recording phase of `RecordScreen`
(`type RecordingPhase = 'idle' | 'recording' | 'uploading' | 'processing'`). -/
inductive RecordingPhase where
  | idle
  | recording
  | uploading
  | processing
  deriving DecidableEq

/-- The `RecordScreen` state relevant to the claims: the current `phase`
and the `error` message state (`useState<string | null>(null)`). -/
structure ScreenState where
  phase : RecordingPhase
  error : Option String
  deriving DecidableEq

/-- Permission gate of `useAudioRecorder.startRecording`: it requests
microphone permission and throws `Error('Microphone permission required')`
when not granted; when granted the recording starts and the call resolves.
The audio-mode and hardware steps carry no further observable state for the
claims. -/
def startRecording (granted : Bool) : Except String Unit :=
  if granted then Except.ok () else Except.error ("Microphone permission required")

/-- The `handleStartRecording` callback of `RecordScreen`: clear the error,
await `recorder.startRecording()`, and on success set phase to `recording`;
a thrown error is caught and stored via `setError(e.message)`, leaving the
phase untouched. -/
def handleStartRecording (granted : Bool) (s : ScreenState) : ScreenState :=
  let s1 : ScreenState := { s with error := none }
  match startRecording granted with
  | Except.ok _ => { s1 with phase := RecordingPhase.recording }
  | Except.error msg => { s1 with error := some msg }

/-- Observable trace of one `handleStopRecording` run: the `setPhase` calls
in order, the number of `api.createSession` invocations, the report passed
to `navigation.navigate('Report', ...)` when reached, and the final screen
state. -/
structure StopTrace (ρ : Type) where
  phases : List RecordingPhase
  uploadCalls : Nat
  navigatedReport : Option ρ
  final : ScreenState
  deriving DecidableEq

/-- The `handleStopRecording` callback of `RecordScreen`, with its
collaborators abstracted: `uri` is the value returned by
`recorder.stopRecording()` (`null` when no recording exists),
`createResult` the result of `api.createSession` (session id or thrown
`ApiError`), and `waitResult` the result of `api.waitForCompletion`
(report or thrown `ApiError`).  A falsy `uri` sets the error
`'No recording found'` and phase `idle` and returns before any upload;
otherwise the phase passes through `uploading`, then `processing`, and a
caught error sets `setError(e.message)` and phase `idle`. -/
def handleStopRecording {ρ : Type} (uri : Option String)
    (createResult : Except ApiError String) (waitResult : Except ApiError ρ)
    (s0 : ScreenState) : StopTrace ρ :=
  match uri with
  | none =>
    ⟨[RecordingPhase.idle], 0, none,
      { s0 with error := some ("No recording found"), phase := RecordingPhase.idle }⟩
  | some _ =>
    match createResult with
    | Except.error e =>
      ⟨[RecordingPhase.uploading, RecordingPhase.idle], 1, none,
        { s0 with error := some e.message, phase := RecordingPhase.idle }⟩
    | Except.ok _ =>
      match waitResult with
      | Except.error e =>
        ⟨[RecordingPhase.uploading, RecordingPhase.processing, RecordingPhase.idle], 1, none,
          { s0 with error := some e.message, phase := RecordingPhase.idle }⟩
      | Except.ok report =>
        ⟨[RecordingPhase.uploading, RecordingPhase.processing, RecordingPhase.idle], 1,
          some report, { s0 with phase := RecordingPhase.idle }⟩

/-- C1: for every sequence of polled status responses of length at most
`maxAttempts` whose last element is `completed` and whose earlier elements
are all non-terminal (`pending`/`processing`), both pollers
(`pollSessionStatus` and `waitForCompletion`) stop at the single
`completed` observation after exactly `n` status calls, call the
report-fetch endpoint exactly once, and resolve with the fetched report. -/
theorem poller_completed_sequence {ρ : Type} (f : Nat → SessionStatusResponse) (r : ρ)
    (n m : Nat) (hn : 0 < n) (hnm : n ≤ m)
    (hpre : ∀ i, i < n - 1 → (f i).status = "pending" ∨ (f i).status = "processing")
    (hlast : (f (n - 1)).status = "completed") :
    pollSessionStatus f r (m : Int) =
      ⟨n, 1, (List.range n).map (fun j => (f j).status), PollOutcome.ok r⟩ ∧
    waitForCompletion f r (m : Int) =
      ⟨n, 1, (List.range n).map (fun j => f j), PollOutcome.ok r⟩ := by
  have hk : n - 1 < m := by omega
  have hpre2 : ∀ j, j < n - 1 →
      (f (0 + j)).status ≠ "completed" ∧ (f (0 + j)).status ≠ "failed" := by
    intro j hj
    rw [Nat.zero_add]
    rcases hpre j hj with h | h <;> rw [h] <;> exact ⟨by decide, by decide⟩
  have hc : (f (0 + (n - 1))).status = "completed" := by rwa [Nat.zero_add]
  have hn1 : n - 1 + 1 = n := by omega
  have e1 := pollLoop_completed f (fun st => st.status) processingTimedOut r (n - 1) 0 m hk hpre2 hc
  have e2 := pollLoop_completed f (fun st => st) waitTimeoutError r (n - 1) 0 m hk hpre2 hc
  rw [hn1] at e1 e2
  simp only [Nat.zero_add] at e1 e2
  constructor
  · simpa only [pollSessionStatus, Int.toNat_natCast] using e1
  · simpa only [waitForCompletion, Int.toNat_natCast] using e2

/-- Status oracle used in the C1 witness: two `pending` responses followed
by `completed`. -/
def rampCompletedStream : Nat → SessionStatusResponse := fun i =>
  if i < 2 then ⟨"pending", none⟩ else ⟨"completed", none⟩

/-- Witness for C1 at the concrete input `[pending, pending, completed]`
with `maxAttempts = 5`. -/
theorem poller_completed_sequence_witness :
    pollSessionStatus rampCompletedStream () (5 : Int) =
      ⟨3, 1, ["pending", "pending", "completed"], PollOutcome.ok ()⟩ ∧
    waitForCompletion rampCompletedStream () (5 : Int) =
      ⟨3, 1, [⟨"pending", none⟩, ⟨"pending", none⟩, ⟨"completed", none⟩], PollOutcome.ok ()⟩ := by
  have h := poller_completed_sequence rampCompletedStream () 3 5
    (by decide) (by decide) (by decide) (by decide)
  exact ⟨h.1.trans (by decide), h.2.trans (by decide)⟩

/-- C2: for every sequence of polled status responses whose first terminal
element is `failed` (at index `k`, within the attempt budget), both pollers
throw the `ProcessingFailed` error `ApiError(_, 500)` carrying the
server-supplied message — the generic fallback `'Processing failed'` when
the server supplies none — and never call the report-fetch endpoint. -/
theorem poller_failed_sequence {ρ : Type} (f : Nat → SessionStatusResponse) (r : ρ)
    (k m : Nat) (hk : k < m)
    (hpre : ∀ i, i < k → (f i).status ≠ "completed" ∧ (f i).status ≠ "failed")
    (hfail : (f k).status = "failed") :
    pollSessionStatus f r (m : Int) =
      ⟨k + 1, 0, (List.range (k + 1)).map (fun j => (f j).status),
        PollOutcome.err ⟨jsOrString (f k).error_message ("Processing failed"), 500⟩⟩ ∧
    waitForCompletion f r (m : Int) =
      ⟨k + 1, 0, (List.range (k + 1)).map (fun j => f j),
        PollOutcome.err ⟨jsOrString (f k).error_message ("Processing failed"), 500⟩⟩ ∧
    (∀ s, (f k).error_message = some s → s ≠ "" →
      jsOrString (f k).error_message ("Processing failed") = s) ∧
    ((f k).error_message = none →
      jsOrString (f k).error_message ("Processing failed") = "Processing failed") := by
  have hpre2 : ∀ j, j < k →
      (f (0 + j)).status ≠ "completed" ∧ (f (0 + j)).status ≠ "failed" := by
    intro j hj
    rw [Nat.zero_add]
    exact hpre j hj
  have hc : (f (0 + k)).status = "failed" := by rwa [Nat.zero_add]
  have e1 := pollLoop_failed f (fun st => st.status) processingTimedOut r k 0 m hk hpre2 hc
  have e2 := pollLoop_failed f (fun st => st) waitTimeoutError r k 0 m hk hpre2 hc
  simp only [Nat.zero_add] at e1 e2
  refine ⟨?_, ?_, ?_, ?_⟩
  · simpa only [pollSessionStatus, Int.toNat_natCast] using e1
  · simpa only [waitForCompletion, Int.toNat_natCast] using e2
  · intro s hs hne
    rw [hs]
    simp [jsOrString, hne]
  · intro hnone
    rw [hnone]
    rfl

/-- Status oracle used in the C2 witness: one `processing` response, then
`failed` with a server-supplied message. -/
def failedStream : Nat → SessionStatusResponse := fun i =>
  if i = 0 then ⟨"processing", none⟩ else ⟨"failed", some ("transcription error")⟩

/-- Witness for C2 at the concrete input `[processing, failed]` with
`maxAttempts = 5`: both pollers throw the server-supplied message with
code 500 and fetch no report. -/
theorem poller_failed_sequence_witness :
    pollSessionStatus failedStream () (5 : Int) =
      ⟨2, 0, ["processing", "failed"], PollOutcome.err ⟨"transcription error", 500⟩⟩ ∧
    waitForCompletion failedStream () (5 : Int) =
      ⟨2, 0, [⟨"processing", none⟩, ⟨"failed", some ("transcription error")⟩],
        PollOutcome.err ⟨"transcription error", 500⟩⟩ := by
  have h := poller_failed_sequence failedStream () 1 5
    (by decide) (by decide) (by decide)
  exact ⟨h.1.trans (by decide), h.2.1.trans (by decide)⟩

/-- C3: if `maxAttempts` consecutive status responses are all `pending` or
`processing`, both pollers throw the Timeout error after exactly
`maxAttempts` status calls and zero report fetches; the Timeout error
(code 408) is distinguishable from every `ProcessingFailed` error the
pollers construct (code 500). -/
theorem poller_timeout_sequence {ρ : Type} (f : Nat → SessionStatusResponse) (r : ρ)
    (n : Nat)
    (hall : ∀ i, i < n → (f i).status = "pending" ∨ (f i).status = "processing") :
    pollSessionStatus f r (n : Int) =
      ⟨n, 0, (List.range n).map (fun j => (f j).status), PollOutcome.err processingTimedOut⟩ ∧
    waitForCompletion f r (n : Int) =
      ⟨n, 0, (List.range n).map (fun j => f j), PollOutcome.err waitTimeoutError⟩ ∧
    processingTimedOut.status = 408 ∧ waitTimeoutError.status = 408 ∧
    (∀ s, ApiError.mk s 500 ≠ processingTimedOut ∧ ApiError.mk s 500 ≠ waitTimeoutError) := by
  have hall2 : ∀ j, j < n →
      (f (0 + j)).status ≠ "completed" ∧ (f (0 + j)).status ≠ "failed" := by
    intro j hj
    rw [Nat.zero_add]
    rcases hall j hj with h | h <;> rw [h] <;> exact ⟨by decide, by decide⟩
  have e1 := pollLoop_timeout f (fun st => st.status) processingTimedOut r n 0 hall2
  have e2 := pollLoop_timeout f (fun st => st) waitTimeoutError r n 0 hall2
  simp only [Nat.zero_add] at e1 e2
  refine ⟨?_, ?_, rfl, rfl, ?_⟩
  · simpa only [pollSessionStatus, Int.toNat_natCast] using e1
  · simpa only [waitForCompletion, Int.toNat_natCast] using e2
  · intro s
    constructor <;> · intro h
                      have := congrArg ApiError.status h
                      simp [processingTimedOut, waitTimeoutError] at this

/-- Status oracle used in the C3 witness: `pending` then `processing`
forever. -/
def pendingProcessingStream : Nat → SessionStatusResponse := fun i =>
  if i = 0 then ⟨"pending", none⟩ else ⟨"processing", none⟩

/-- Witness for C3 at the concrete input `[pending, processing]` with
`maxAttempts = 2`: both pollers time out after exactly 2 status calls and
0 report fetches. -/
theorem poller_timeout_sequence_witness :
    pollSessionStatus pendingProcessingStream () (2 : Int) =
      ⟨2, 0, ["pending", "processing"], PollOutcome.err processingTimedOut⟩ ∧
    waitForCompletion pendingProcessingStream () (2 : Int) =
      ⟨2, 0, [⟨"pending", none⟩, ⟨"processing", none⟩], PollOutcome.err waitTimeoutError⟩ ∧
    ApiError.mk ("Processing failed") 500 ≠ processingTimedOut := by
  have h := poller_timeout_sequence pendingProcessingStream () 2 (by decide)
  exact ⟨h.1.trans (by decide), h.2.1.trans (by decide), (h.2.2.2.2 ("Processing failed")).1⟩

/-- C4 counterexample: not every poller defaults to a 1-second interval and
120 attempts — `waitForCompletion` declares `maxAttempts: number = 60` and
`intervalMs: number = 2000`. -/
theorem poller_defaults_counterexample :
    waitForCompletionDefaultMaxAttempts = 60 ∧
    waitForCompletionDefaultIntervalMs = 2000 ∧
    ¬ (waitForCompletionDefaultIntervalMs = 1000 ∧ waitForCompletionDefaultMaxAttempts = 120) := by
  decide

/-- C4 amended: when the caller omits the optional parameters,
`pollSessionStatus` uses a 1000 ms poll interval and 120 attempts, while
`waitForCompletion` uses a 2000 ms poll interval and 60 attempts; on an
all-pending status stream the default budgets yield exactly 120,
respectively 60, status calls. -/
theorem poller_defaults_amended :
    pollSessionStatusDefaultInterval = 1000 ∧
    pollSessionStatusDefaultMaxAttempts = 120 ∧
    waitForCompletionDefaultIntervalMs = 2000 ∧
    waitForCompletionDefaultMaxAttempts = 60 ∧
    (pollSessionStatus allPendingStream () pollSessionStatusDefaultMaxAttempts).statusCalls = 120 ∧
    (waitForCompletion allPendingStream () waitForCompletionDefaultMaxAttempts).statusCalls = 60 := by
  refine ⟨rfl, rfl, rfl, rfl, ?_, ?_⟩ <;> rfl

/-- C5: in every run of either poller, the progress callback receives
exactly one event per poll attempt, in attempt order, carrying the exact
observed status — `pollSessionStatus` passes the status string,
`waitForCompletion` the whole status response — the terminal observation
included; the trace records the outcome after the last event, so nothing
is delivered after the poller has resolved or rejected. -/
theorem poller_progress_callback_order {ρ : Type} (f : Nat → SessionStatusResponse)
    (r : ρ) (m : Int) :
    (pollSessionStatus f r m).progressEvents =
      (List.range ((pollSessionStatus f r m).statusCalls)).map (fun j => (f j).status) ∧
    (waitForCompletion f r m).progressEvents =
      (List.range ((waitForCompletion f r m).statusCalls)).map (fun j => f j) := by
  have e1 := pollLoop_progressEvents f (fun st => st.status) processingTimedOut r m.toNat 0
  have e2 := pollLoop_progressEvents f (fun st => st) waitTimeoutError r m.toNat 0
  simp only [Nat.zero_add] at e1 e2
  exact ⟨e1, e2⟩

/-- C6 counterexample: the pollers take no cancellation input (their only
parameters are the session id, the progress callback, the interval and
`maxAttempts`), so a poll started with `maxAttempts = 120` on an
all-pending stream performs all 120 status calls and delivers all 120
progress callbacks — there is no run in which, after 2 of 120 attempts, no
further status calls or callbacks occur. -/
theorem poller_cancellation_counterexample :
    (pollSessionStatus allPendingStream () (120 : Int)).statusCalls = 120 ∧
    (pollSessionStatus allPendingStream () (120 : Int)).progressEvents.length = 120 ∧
    (waitForCompletion allPendingStream () (120 : Int)).statusCalls = 120 ∧
    ¬ (pollSessionStatus allPendingStream () (120 : Int)).statusCalls = 2 := by
  refine ⟨rfl, ?_, rfl, by decide⟩
  rfl

/-- C6 amended: the pollers provide no caller-initiated cancellation — once
started on a stream of non-terminal statuses, they perform every one of the
`maxAttempts` status calls and deliver a progress callback for each, so an
in-flight poll cannot be stopped after 2 of 120 attempts. -/
theorem poller_no_cancellation_amended {ρ : Type} (f : Nat → SessionStatusResponse)
    (r : ρ) (n : Nat)
    (hall : ∀ i, i < n → (f i).status ≠ "completed" ∧ (f i).status ≠ "failed") :
    (pollSessionStatus f r (n : Int)).statusCalls = n ∧
    (pollSessionStatus f r (n : Int)).progressEvents.length = n ∧
    (waitForCompletion f r (n : Int)).statusCalls = n ∧
    (waitForCompletion f r (n : Int)).progressEvents.length = n := by
  have hall2 : ∀ j, j < n →
      (f (0 + j)).status ≠ "completed" ∧ (f (0 + j)).status ≠ "failed" := by
    intro j hj
    rw [Nat.zero_add]
    exact hall j hj
  have e1 := pollLoop_timeout f (fun st => st.status) processingTimedOut r n 0 hall2
  have e2 := pollLoop_timeout f (fun st => st) waitTimeoutError r n 0 hall2
  simp only [pollSessionStatus, waitForCompletion, Int.toNat_natCast]
  rw [e1, e2]
  simp

/-- Witness for the amended C6 at the all-pending stream with
`maxAttempts = 4`. -/
theorem poller_no_cancellation_amended_witness :
    (pollSessionStatus allPendingStream () (4 : Int)).statusCalls = 4 ∧
    (pollSessionStatus allPendingStream () (4 : Int)).progressEvents.length = 4 ∧
    (waitForCompletion allPendingStream () (4 : Int)).statusCalls = 4 ∧
    (waitForCompletion allPendingStream () (4 : Int)).progressEvents.length = 4 :=
  poller_no_cancellation_amended allPendingStream () 4 (by decide)

/-- C7 counterexample: on a stream answering the unexpected status
`queued`, the pollers do not stop with a fatal local error at the first
observation — with `maxAttempts = 3` they make all 3 status calls (not 1)
and then throw the Timeout error, i.e. they keep retrying until the
attempt budget is exhausted. -/
theorem unexpected_status_counterexample :
    (pollSessionStatus queuedStream () (3 : Int)).statusCalls = 3 ∧
    ¬ (pollSessionStatus queuedStream () (3 : Int)).statusCalls = 1 ∧
    (pollSessionStatus queuedStream () (3 : Int)).outcome = PollOutcome.err processingTimedOut ∧
    (waitForCompletion queuedStream () (3 : Int)).statusCalls = 3 := by
  exact ⟨rfl, by decide, rfl, rfl⟩

/-- C7 amended: a status value outside
`{pending, processing, completed, failed}` is treated exactly like a
non-terminal status — the pollers retry it, and when every response within
the budget is non-completed and non-failed, they exhaust the `maxAttempts`
budget and throw the Timeout error (bounded retrying, no fatal error at
the unexpected observation). -/
theorem unexpected_status_amended {ρ : Type} (f : Nat → SessionStatusResponse)
    (r : ρ) (n : Nat)
    (hall : ∀ i, i < n → (f i).status ≠ "completed" ∧ (f i).status ≠ "failed") :
    pollSessionStatus f r (n : Int) =
      ⟨n, 0, (List.range n).map (fun j => (f j).status), PollOutcome.err processingTimedOut⟩ ∧
    waitForCompletion f r (n : Int) =
      ⟨n, 0, (List.range n).map (fun j => f j), PollOutcome.err waitTimeoutError⟩ := by
  have hall2 : ∀ j, j < n →
      (f (0 + j)).status ≠ "completed" ∧ (f (0 + j)).status ≠ "failed" := by
    intro j hj
    rw [Nat.zero_add]
    exact hall j hj
  have e1 := pollLoop_timeout f (fun st => st.status) processingTimedOut r n 0 hall2
  have e2 := pollLoop_timeout f (fun st => st) waitTimeoutError r n 0 hall2
  simp only [Nat.zero_add] at e1 e2
  constructor
  · simpa only [pollSessionStatus, Int.toNat_natCast] using e1
  · simpa only [waitForCompletion, Int.toNat_natCast] using e2

/-- Witness for the amended C7 at the all-queued stream with
`maxAttempts = 2`. -/
theorem unexpected_status_amended_witness :
    pollSessionStatus queuedStream () (2 : Int) =
      ⟨2, 0, ["queued", "queued"], PollOutcome.err processingTimedOut⟩ ∧
    waitForCompletion queuedStream () (2 : Int) =
      ⟨2, 0, [⟨"queued", none⟩, ⟨"queued", none⟩], PollOutcome.err waitTimeoutError⟩ := by
  have h := unexpected_status_amended queuedStream () 2 (by decide)
  exact ⟨h.1.trans (by decide), h.2.trans (by decide)⟩

/-- C8: starting a recording from the `idle` phase with microphone
permission denied leaves the phase at `idle`, exposes the non-null error
`'Microphone permission required'`, and in particular never transitions to
`recording`. -/
theorem start_recording_denied (s : ScreenState) (h : s.phase = RecordingPhase.idle) :
    (handleStartRecording false s).phase = RecordingPhase.idle ∧
    (handleStartRecording false s).error = some ("Microphone permission required") ∧
    ¬ (handleStartRecording false s).phase = RecordingPhase.recording := by
  refine ⟨?_, rfl, ?_⟩
  · exact h
  · rw [show (handleStartRecording false s).phase = s.phase from rfl, h]
    decide

/-- Witness for C8 at the concrete idle state with no prior error. -/
theorem start_recording_denied_witness :
    (handleStartRecording false ⟨RecordingPhase.idle, none⟩).phase = RecordingPhase.idle ∧
    (handleStartRecording false ⟨RecordingPhase.idle, none⟩).error =
      some ("Microphone permission required") ∧
    ¬ (handleStartRecording false ⟨RecordingPhase.idle, none⟩).phase =
      RecordingPhase.recording :=
  start_recording_denied ⟨RecordingPhase.idle, none⟩ rfl

/-- C9: stopping a recording whose `stopRecording()` yields no audio
(`uri = null`) sets the error `'No recording found'` and moves the phase
directly to `idle`: the run never enters the `uploading` or `processing`
phases and never calls the upload (`createSession`) endpoint, whatever the
abstracted upload and poll results would have been. -/
theorem stop_recording_no_audio {ρ : Type} (createResult : Except ApiError String)
    (waitResult : Except ApiError ρ) (s0 : ScreenState) :
    handleStopRecording none createResult waitResult s0 =
      ⟨[RecordingPhase.idle], 0, none,
        { s0 with error := some ("No recording found"), phase := RecordingPhase.idle }⟩ ∧
    (handleStopRecording none createResult waitResult s0).uploadCalls = 0 ∧
    ¬ RecordingPhase.uploading ∈ (handleStopRecording none createResult waitResult s0).phases ∧
    ¬ RecordingPhase.processing ∈ (handleStopRecording none createResult waitResult s0).phases := by
  refine ⟨rfl, rfl, ?_, ?_⟩ <;> · rw [show (handleStopRecording none createResult waitResult
      s0).phases = [RecordingPhase.idle] from rfl]
                                  decide

/-- C10: calling either poller with `maxAttempts ≤ 0` (the `while`/`for`
guard `attempts < maxAttempts` fails at once) throws the Timeout error
immediately: zero status calls, zero report fetches, and zero progress
callbacks. -/
theorem poller_nonpositive_attempts {ρ : Type} (f : Nat → SessionStatusResponse)
    (r : ρ) (m : Int) (hm : m ≤ 0) :
    pollSessionStatus f r m = ⟨0, 0, [], PollOutcome.err processingTimedOut⟩ ∧
    waitForCompletion f r m = ⟨0, 0, [], PollOutcome.err waitTimeoutError⟩ := by
  have h0 : m.toNat = 0 := Int.toNat_of_nonpos hm
  constructor
  · rw [pollSessionStatus, h0]
    rfl
  · rw [waitForCompletion, h0]
    rfl

/-- Witness for C10 at `maxAttempts = -5` on the all-pending stream. -/
theorem poller_nonpositive_attempts_witness :
    pollSessionStatus allPendingStream () (-5 : Int) =
      ⟨0, 0, [], PollOutcome.err processingTimedOut⟩ ∧
    waitForCompletion allPendingStream () (-5 : Int) =
      ⟨0, 0, [], PollOutcome.err waitTimeoutError⟩ :=
  poller_nonpositive_attempts allPendingStream () (-5) (by decide)
